import Mathlib

/-!
Shallow embedding of the `/api/check` request handler of the Rstat
repository: `src/server.js` (V2.3) and the unnamed single-file variant
(V3.0).  Upstream network calls are modelled by an oracle (`World`)
supplying the submission response and the sequence of poll responses;
each call either returns data or throws a transport error.  JavaScript
peculiarities that the handler relies on (strict equality `===`,
truthiness of `||` and `!`, `parseInt` returning `NaN`, `Math.round`)
are modelled explicitly.
-/

/-- A JavaScript runtime value, as far as the handler inspects one:
numbers (modelled as rationals), strings, booleans, `null` and
`undefined`. -/
inductive JSVal : Type
  | num (q : ℚ)
  | str (s : String)
  | boolean (b : Bool)
  | nullv
  | undef
deriving DecidableEq, Repr

/-- JavaScript strict equality (`===`) of a value against a number
literal: true only when the value is a number equal to it. -/
def jsStrictEqNum : JSVal → ℚ → Bool
  | JSVal.num q, r => q = r
  | _, _ => false

/-- Truthiness of an optional string field of a JSON object: `undefined`
(absent) and the empty string are falsy, every other string is truthy. -/
def jsTruthyStr : Option String → Bool
  | none => false
  | some s => s ≠ ""

/-- JavaScript `x || d` for an optional string `x` and a string default
`d`: the string itself when truthy, otherwise the default. -/
def jsOrStr (x : Option String) (d : String) : String :=
  match x with
  | none => d
  | some s => if s = "" then d else s

/-- A JavaScript number that may be `NaN` (integer-valued otherwise;
the handler only ever produces integers or `NaN` in these positions). -/
inductive JNum : Type
  | int (n : ℤ)
  | nan
deriving DecidableEq, Repr

/-- JavaScript `Math.round`: round half toward positive infinity. -/
def jsRound (q : ℚ) : ℤ := (q + 1/2).floor

/-- Digit recognised by `parseInt` in the given radix (10 or 16). -/
def isRadixDigit (radix : ℕ) (c : Char) : Bool :=
  if radix = 16 then
    c.isDigit || ('a' ≤ c && c ≤ 'f') || ('A' ≤ c && c ≤ 'F')
  else
    c.isDigit

/-- Numeric value of a digit character (0 for non-digits, unused). -/
def radixDigitVal (c : Char) : ℕ :=
  if c.isDigit then c.toNat - 48
  else if 'a' ≤ c && c ≤ 'f' then c.toNat - 87
  else if 'A' ≤ c && c ≤ 'F' then c.toNat - 55
  else 0

/-- JavaScript `parseInt` on a string: skip leading whitespace, read an
optional sign, detect an optional `0x`/`0X` hex prefix, then take the
longest prefix of digits valid in the radix; if that prefix is empty the
result is `NaN`. -/
def parseIntJS (s : String) : JNum :=
  let cs := s.toList.dropWhile fun c =>
    c = ' ' || c = '\t' || c = '\n' || c = '\r'
  let signAndRest : ℤ × List Char :=
    match cs with
    | '-' :: rest => (-1, rest)
    | '+' :: rest => (1, rest)
    | _ => (1, cs)
  let radixAndRest : ℕ × List Char :=
    match signAndRest.2 with
    | '0' :: 'x' :: rest => (16, rest)
    | '0' :: 'X' :: rest => (16, rest)
    | _ => (10, signAndRest.2)
  let ds := radixAndRest.2.takeWhile (isRadixDigit radixAndRest.1)
  if ds.isEmpty then JNum.nan
  else JNum.int (signAndRest.1 *
    (ds.foldl (fun acc c => acc * radixAndRest.1 + radixDigitVal c) 0 : ℕ))

/-- The per-node result record, a fixed-position tuple
`[isUpRaw, latencySeconds, message, statusCodeRaw]`
(`src/server.js` line 129).  Absent positions are `none`. -/
structure ResultTuple : Type where
  isUpRaw : JSVal
  latencySeconds : Option ℚ
  message : Option String
  statusCodeRaw : Option String
deriving DecidableEq, Repr

/-- Body of the upstream submission response
(`startResponse.data`): the `ok` flag, the opaque `request_id`, and an
optional `message`. -/
structure StartData : Type where
  ok : JSVal
  request_id : Option String
  message : Option String
deriving DecidableEq, Repr

/-- Body of one upstream poll response (`resultResponse.data`), reduced
to the entry for the fixed node id: `none` when the key is absent,
otherwise the array of per-node records, each of which may be `null`
(the upstream returns `[null]` while the check is pending). -/
structure PollData : Type where
  nodeEntry : Option (List (Option ResultTuple))
deriving DecidableEq, Repr

/-- A transport-level error thrown by an axios call: its `code`
(e.g. `ECONNABORTED`) and its `message`. -/
structure JsError : Type where
  code : Option String
  message : String
deriving DecidableEq, Repr

/-- Outcome of one upstream network call: either response data or a
thrown transport error. -/
inductive NetResult (α : Type) : Type
  | ok (data : α)
  | err (e : JsError)
deriving DecidableEq, Repr

/-- The fixed sequence of upstream behaviours for one request: the
submission response and, for each poll attempt index, the poll
response. -/
structure World : Type where
  start : NetResult StartData
  polls : ℕ → NetResult PollData

/-- The JSON body of a POST `/api/check` request: the `url` and
`method` fields, each possibly absent. -/
structure Request : Type where
  url : Option String
  method : Option String
deriving DecidableEq, Repr

/-- The JSON body of an `/api/check` response, as a record of optional
fields; `none` means the field is absent from the serialized object. -/
structure RespBody : Type where
  error : Option String := none
  isBackendError : Option Bool := none
  errorDetail : Option String := none
  statusCode : Option JNum := none
  isUp : Option Bool := none
  latency : Option ℤ := none
  errorRate : Option ℕ := none
  message : Option String := none
deriving DecidableEq, Repr

/-- What the handler sends back plus the outbound-call trace: HTTP
status, response body, the URL of the submission call when one was
issued, and the number of poll calls issued. -/
structure HandlerResult : Type where
  status : ℕ
  body : RespBody
  submissionUrl : Option String
  pollCalls : ℕ
deriving DecidableEq, Repr

def CHECK_HOST_BASE_URL : String := "https://check-host.net"

def DEFAULT_NODE_ID : String := "sg1.node.check-host.net"

/-- The `METHOD_ENDPOINT_MAP` of `src/server.js` (V2.3), which includes
`udp`. -/
def METHOD_ENDPOINT_MAP_V23 (method : String) : Option String :=
  if method = "http" then some "check-http"
  else if method = "ping" then some "check-ping"
  else if method = "tcp" then some "check-tcp"
  else if method = "udp" then some "check-udp"
  else if method = "dns" then some "check-dns"
  else if method = "whois" then some "check-whois"
  else none

/-- The `METHOD_ENDPOINT_MAP` of the V3.0 single-file variant, which has no
`udp` entry. -/
def METHOD_ENDPOINT_MAP_V30 (method : String) : Option String :=
  if method = "http" then some "check-http"
  else if method = "ping" then some "check-ping"
  else if method = "tcp" then some "check-tcp"
  else if method = "dns" then some "check-dns"
  else if method = "whois" then some "check-whois"
  else none

/-- The condition `nodeResult && nodeResult[0]` of the poll loop: the
node entry exists and its first element exists and is non-null. -/
def pollDataFound (d : PollData) : Option ResultTuple :=
  match d.nodeEntry with
  | some (some t :: _) => some t
  | _ => none

/-- The polling while-loop (`src/server.js` lines 96-112), identical in
both versions.  `idx` is the index of the next poll call, `remaining`
the attempts left out of `maxAttempts = 6`.  Returns the loop outcome
(a thrown error, or the found record if any) together with the total
number of poll calls issued. -/
def pollLoop (polls : ℕ → NetResult PollData) :
    ℕ → ℕ → Except JsError (Option ResultTuple) × ℕ
  | idx, 0 => (Except.ok none, idx)
  | idx, remaining + 1 =>
    match polls idx with
    | NetResult.err e => (Except.error e, idx + 1)
    | NetResult.ok d =>
      match pollDataFound d with
      | some t => (Except.ok (some t), idx + 1)
      | none => pollLoop polls (idx + 1) remaining

def maxAttempts : ℕ := 6

/-- Line 131 of `src/server.js`: `isUp = isUpRaw === 1`. -/
def normalizedIsUp (t : ResultTuple) : Bool :=
  jsStrictEqNum t.isUpRaw 1

/-- Line 132 of `src/server.js`:
`latencyMs = Math.round((latencySeconds || 0) * 1000)`;
for a rational `q`, the JavaScript `q || 0` equals `q`. -/
def normalizedLatency (t : ResultTuple) : ℤ :=
  jsRound ((t.latencySeconds.getD 0) * 1000)

/-- Line 133 of `src/server.js`:
`statusCode = parseInt(statusCodeRaw or '0')` (with the or spelled as
two vertical bars). -/
def normalizedStatusCode (t : ResultTuple) : JNum :=
  parseIntJS (jsOrStr t.statusCodeRaw "0")

/-- The submission URL (`src/server.js` line 61, identical at V3.0 line
68): plain string concatenation, no encoding. -/
def checkUrlOf (apiEndpoint url : String) : String :=
  CHECK_HOST_BASE_URL ++ "/" ++ apiEndpoint ++ "?host=" ++ url ++
    "&node=" ++ DEFAULT_NODE_ID

/-- The `catch` block's `errorDetail` (`src/server.js` lines 144-148,
identical in V3.0). -/
def catchErrorDetail (method : String) (e : JsError) : String :=
  if e.code = some "ECONNABORTED" || e.code = some "ETIMEDOUT" then
    "Backend Timeout when calling Check-Host API for " ++ method ++ "."
  else
    "Backend failed to connect to Check-Host: " ++ e.message

/-- The body of the `try` block of the V2.3 handler (`src/server.js`
lines 57-142): submission, acknowledgement check, poll loop, and result
normalization.  Returns the response body or the thrown error, paired
with the number of poll calls issued. -/
def tryCheckV23 (method apiEndpoint : String) (w : World) :
    Except JsError RespBody × ℕ :=
  match w.start with
  | NetResult.err e => (Except.error e, 0)
  | NetResult.ok startData =>
    if ¬ jsStrictEqNum startData.ok 1 ∨ ¬ jsTruthyStr startData.request_id then
      if apiEndpoint = "check-whois" ∨ apiEndpoint = "check-dns" then
        (Except.ok
          { isUp := some true
            latency := some 0
            statusCode := some (JNum.int 200)
            message := some ("Initial result for " ++ method ++ ": " ++
              jsOrStr startData.message "Data received.") }, 0)
      else
        (Except.ok
          { isBackendError := some true
            errorDetail := some ("Check-Host API rejected the request for method "
              ++ method ++ ".")
            statusCode := some (JNum.int 0) }, 0)
    else
      let loopOut := pollLoop w.polls 0 maxAttempts
      match loopOut.1 with
      | Except.error e => (Except.error e, loopOut.2)
      | Except.ok none =>
        (Except.ok
          { latency := some 6000
            statusCode := some (JNum.int 599)
            isUp := some false
            errorRate := some 1
            errorDetail := some ("Check-Host node did not return result for "
              ++ method ++ " within timeout.") }, loopOut.2)
      | Except.ok (some t) =>
        (Except.ok
          { latency := some (normalizedLatency t)
            statusCode := some (normalizedStatusCode t)
            isUp := some (normalizedIsUp t)
            errorRate := some (if normalizedIsUp t then 0 else 1)
            message := t.message }, loopOut.2)

/-- The full `app.post('/api/check')` handler of `src/server.js`
(V2.3): field validation, method mapping, the `try` block, and the
`catch` block. -/
def serverHandler (req : Request) (w : World) : HandlerResult :=
  if ¬ jsTruthyStr req.url ∨ ¬ jsTruthyStr req.method then
    { status := 400
      body := { error := some "URL and Method are required." }
      submissionUrl := none
      pollCalls := 0 }
  else
    let url := req.url.getD ""
    let method := req.method.getD ""
    match METHOD_ENDPOINT_MAP_V23 method with
    | none =>
      { status := 400
        body := { isBackendError := some true
                  errorDetail := some ("Unsupported method: " ++ method ++ ".")
                  statusCode := some (JNum.int 0) }
        submissionUrl := none
        pollCalls := 0 }
    | some apiEndpoint =>
      let checkUrl := checkUrlOf apiEndpoint url
      let out := tryCheckV23 method apiEndpoint w
      match out.1 with
      | Except.ok body =>
        { status := 200, body := body
          submissionUrl := some checkUrl, pollCalls := out.2 }
      | Except.error e =>
        { status := 200
          body := { isBackendError := some true
                    errorDetail := some (catchErrorDetail method e)
                    statusCode := some (JNum.int 0) }
          submissionUrl := some checkUrl
          pollCalls := out.2 }

/-- The body of the `try` block of the V3.0 single-file handler
(unnamed source, lines 66-146).  It differs from V2.3 in three places:
the rejection `errorDetail` appends the upstream message, the
dns/whois fallback message text, and the absence of `errorRate` in the
normal-result response. -/
def tryCheckV30 (method apiEndpoint : String) (w : World) :
    Except JsError RespBody × ℕ :=
  match w.start with
  | NetResult.err e => (Except.error e, 0)
  | NetResult.ok startData =>
    if ¬ jsStrictEqNum startData.ok 1 ∨ ¬ jsTruthyStr startData.request_id then
      let checkHostMessage := jsOrStr startData.message
        "No specific error message provided by Check-Host."
      if apiEndpoint = "check-whois" ∨ apiEndpoint = "check-dns" then
        (Except.ok
          { isUp := some true
            latency := some 0
            statusCode := some (JNum.int 200)
            message := some ("Initial result for " ++ method ++ ": " ++
              checkHostMessage) }, 0)
      else
        (Except.ok
          { isBackendError := some true
            errorDetail := some ("Check-Host API rejected the request for method "
              ++ method ++ ". Message: " ++ checkHostMessage)
            statusCode := some (JNum.int 0) }, 0)
    else
      let loopOut := pollLoop w.polls 0 maxAttempts
      match loopOut.1 with
      | Except.error e => (Except.error e, loopOut.2)
      | Except.ok none =>
        (Except.ok
          { latency := some 6000
            statusCode := some (JNum.int 599)
            isUp := some false
            errorRate := some 1
            errorDetail := some ("Check-Host node did not return result for "
              ++ method ++ " within timeout.") }, loopOut.2)
      | Except.ok (some t) =>
        (Except.ok
          { latency := some (normalizedLatency t)
            statusCode := some (normalizedStatusCode t)
            isUp := some (normalizedIsUp t)
            message := t.message }, loopOut.2)

/-- The full `app.post('/api/check')` handler of the V3.0 single-file
variant. -/
def monitorHandler (req : Request) (w : World) : HandlerResult :=
  if ¬ jsTruthyStr req.url ∨ ¬ jsTruthyStr req.method then
    { status := 400
      body := { error := some "URL and Method are required." }
      submissionUrl := none
      pollCalls := 0 }
  else
    let url := req.url.getD ""
    let method := req.method.getD ""
    match METHOD_ENDPOINT_MAP_V30 method with
    | none =>
      { status := 400
        body := { isBackendError := some true
                  errorDetail := some ("Unsupported method: " ++ method ++ ".")
                  statusCode := some (JNum.int 0) }
        submissionUrl := none
        pollCalls := 0 }
    | some apiEndpoint =>
      let checkUrl := checkUrlOf apiEndpoint url
      let out := tryCheckV30 method apiEndpoint w
      match out.1 with
      | Except.ok body =>
        { status := 200, body := body
          submissionUrl := some checkUrl, pollCalls := out.2 }
      | Except.error e =>
        { status := 200
          body := { isBackendError := some true
                    errorDetail := some (catchErrorDetail method e)
                    statusCode := some (JNum.int 0) }
          submissionUrl := some checkUrl
          pollCalls := out.2 }

/-- Split a character list on every occurrence of a separator. -/
def splitOnChar (sep : Char) : List Char → List (List Char)
  | [] => [[]]
  | c :: cs =>
    if c = sep then [] :: splitOnChar sep cs
    else
      match splitOnChar sep cs with
      | [] => [[c]]
      | g :: gs => (c :: g) :: gs

/-- Drop everything up to and including the first occurrence of a
separator; `none` when the separator does not occur. -/
def dropThroughChar (sep : Char) : List Char → Option (List Char)
  | [] => none
  | c :: cs => if c = sep then some cs else dropThroughChar sep cs

/-- Split a character list at the first occurrence of a separator
(second component empty when the separator does not occur). -/
def splitFirstAt (sep : Char) : List Char → List Char × List Char
  | [] => ([], [])
  | c :: cs =>
    if c = sep then ([], cs)
    else
      let r := splitFirstAt sep cs
      (c :: r.1, r.2)

/-- Standard query-string semantics on the receiving side of a GET
request: the query is everything after the first question mark; it is
split on ampersands into parameters, and each parameter is split at
its first equals sign into a key and a value.  This models how the
upstream service decodes the query of the submission URL; it is not
code of this repository. -/
def parseQuery (u : String) : List (String × String) :=
  match dropThroughChar '?' u.toList with
  | none => []
  | some q =>
    (splitOnChar '&' q).map fun p =>
      let kv := splitFirstAt '=' p
      (String.mk kv.1, String.mk kv.2)

/-- A submission response acknowledging the check: `ok = 1` with a
non-empty `request_id`. -/
def okStart : StartData :=
  { ok := JSVal.num 1, request_id := some "rid1", message := none }

/-- A poll response whose node entry is the pending marker `[null]`. -/
def pendingPoll : PollData := { nodeEntry := some [none] }

/-- A world whose submission succeeds and whose polls never return a
record. -/
def wNoResult : World :=
  { start := NetResult.ok okStart, polls := fun _ => NetResult.ok pendingPoll }

/-- A result record `[1, 0.35, "OK", "200"]`. -/
def tupleOK : ResultTuple :=
  { isUpRaw := JSVal.num 1, latencySeconds := some (35/100),
    message := some "OK", statusCodeRaw := some "200" }

/-- A world that delivers a given record on every poll. -/
def wWithTuple (t : ResultTuple) : World :=
  { start := NetResult.ok okStart,
    polls := fun _ => NetResult.ok { nodeEntry := some [some t] } }

/-- A world whose submission call throws a timeout-class error. -/
def wStartTimeout : World :=
  { start := NetResult.err { code := some "ECONNABORTED", message := "timeout of 8000ms exceeded" },
    polls := fun _ => NetResult.ok pendingPoll }

lemma jsStrictEqNum_one_iff (v : JSVal) :
    jsStrictEqNum v 1 = true ↔ v = JSVal.num 1 := by
  cases v <;> simp [jsStrictEqNum]

lemma map_v23_whois_dns (method endpoint : String)
    (h : METHOD_ENDPOINT_MAP_V23 method = some endpoint) :
    (endpoint = "check-whois" ↔ method = "whois") ∧
    (endpoint = "check-dns" ↔ method = "dns") := by
  unfold METHOD_ENDPOINT_MAP_V23 at h
  split_ifs at h <;> simp_all <;> subst h <;> decide

lemma map_agree (method : String) (h : method ≠ "udp") :
    METHOD_ENDPOINT_MAP_V23 method = METHOD_ENDPOINT_MAP_V30 method := by
  unfold METHOD_ENDPOINT_MAP_V23 METHOD_ENDPOINT_MAP_V30
  split_ifs <;> simp_all

lemma pollLoop_exhaust (polls : ℕ → NetResult PollData) :
    ∀ remaining idx,
      (∀ i, idx ≤ i → i < idx + remaining →
        ∃ d, polls i = NetResult.ok d ∧ pollDataFound d = none) →
      pollLoop polls idx remaining = (Except.ok none, idx + remaining) := by
  intro remaining
  induction remaining with
  | zero => intro idx _; simp [pollLoop]
  | succ r ih =>
    intro idx h
    obtain ⟨d, hd, hfound⟩ := h idx le_rfl (by omega)
    simp only [pollLoop, hd, hfound]
    have := ih (idx + 1) (fun i hi hlt => h i (by omega) (by omega))
    rw [this]
    congr 1
    omega

lemma serverHandler_ok (url method endpoint : String) (w : World) (b : RespBody)
    (hu : url ≠ "") (hm : method ≠ "")
    (hmap : METHOD_ENDPOINT_MAP_V23 method = some endpoint)
    (hok : (tryCheckV23 method endpoint w).1 = Except.ok b) :
    serverHandler { url := some url, method := some method } w =
      { status := 200, body := b,
        submissionUrl := some (checkUrlOf endpoint url),
        pollCalls := (tryCheckV23 method endpoint w).2 } := by
  unfold serverHandler
  rw [if_neg]
  · simp only [Option.getD_some, hmap, hok]
  · simp [jsTruthyStr, hu, hm]

lemma serverHandler_err (url method endpoint : String) (w : World) (e : JsError)
    (hu : url ≠ "") (hm : method ≠ "")
    (hmap : METHOD_ENDPOINT_MAP_V23 method = some endpoint)
    (herr : (tryCheckV23 method endpoint w).1 = Except.error e) :
    serverHandler { url := some url, method := some method } w =
      { status := 200
        body := { isBackendError := some true
                  errorDetail := some (catchErrorDetail method e)
                  statusCode := some (JNum.int 0) }
        submissionUrl := some (checkUrlOf endpoint url)
        pollCalls := (tryCheckV23 method endpoint w).2 } := by
  unfold serverHandler
  rw [if_neg]
  · simp only [Option.getD_some, hmap, herr]
  · simp [jsTruthyStr, hu, hm]

lemma tryCheckV23_startErr (method endpoint : String) (w : World) (e : JsError)
    (hstart : w.start = NetResult.err e) :
    tryCheckV23 method endpoint w = (Except.error e, 0) := by
  unfold tryCheckV23
  rw [hstart]

lemma tryCheckV23_rejected (method endpoint : String) (w : World) (sd : StartData)
    (hstart : w.start = NetResult.ok sd)
    (hrej : sd.ok ≠ JSVal.num 1 ∨ jsTruthyStr sd.request_id = false)
    (hw : endpoint ≠ "check-whois") (hd : endpoint ≠ "check-dns") :
    tryCheckV23 method endpoint w =
      (Except.ok
        { isBackendError := some true
          errorDetail := some ("Check-Host API rejected the request for method "
            ++ method ++ ".")
          statusCode := some (JNum.int 0) }, 0) := by
  simp only [tryCheckV23, hstart]
  rw [if_pos, if_neg]
  · simp [hw, hd]
  · rcases hrej with h | h
    · left
      simp [jsStrictEqNum_one_iff, h]
    · right
      simp [h]

lemma tryCheckV23_immediate (method endpoint : String) (w : World) (sd : StartData)
    (hstart : w.start = NetResult.ok sd)
    (hrej : sd.ok ≠ JSVal.num 1 ∨ jsTruthyStr sd.request_id = false)
    (hwd : endpoint = "check-whois" ∨ endpoint = "check-dns") :
    tryCheckV23 method endpoint w =
      (Except.ok
        { isUp := some true
          latency := some 0
          statusCode := some (JNum.int 200)
          message := some ("Initial result for " ++ method ++ ": " ++
            jsOrStr sd.message "Data received.") }, 0) := by
  simp only [tryCheckV23, hstart]
  rw [if_pos, if_pos hwd]
  rcases hrej with h | h
  · left
    simp [jsStrictEqNum_one_iff, h]
  · right
    simp [h]

lemma tryCheckV23_ack (method endpoint : String) (w : World) (sd : StartData)
    (hstart : w.start = NetResult.ok sd)
    (hok : sd.ok = JSVal.num 1) (hid : jsTruthyStr sd.request_id = true) :
    tryCheckV23 method endpoint w =
      (match (pollLoop w.polls 0 maxAttempts).1 with
       | Except.error e => (Except.error e, (pollLoop w.polls 0 maxAttempts).2)
       | Except.ok none =>
         (Except.ok
           { latency := some 6000
             statusCode := some (JNum.int 599)
             isUp := some false
             errorRate := some 1
             errorDetail := some ("Check-Host node did not return result for "
               ++ method ++ " within timeout.") }, (pollLoop w.polls 0 maxAttempts).2)
       | Except.ok (some t) =>
         (Except.ok
           { latency := some (normalizedLatency t)
             statusCode := some (normalizedStatusCode t)
             isUp := some (normalizedIsUp t)
             errorRate := some (if normalizedIsUp t then 0 else 1)
             message := t.message }, (pollLoop w.polls 0 maxAttempts).2)) := by
  simp only [tryCheckV23, hstart]
  rw [if_neg]
  push_neg
  constructor
  · simp [jsStrictEqNum_one_iff, hok]
  · simp [hid]

/-- A submission-call transport error with a timeout code. -/
def eTimeout : JsError :=
  { code := some "ECONNABORTED", message := "timeout of 8000ms exceeded" }

lemma jsOrStr_of_truthy (x : Option String) (d1 d2 : String)
    (h : jsTruthyStr x = true) : jsOrStr x d1 = jsOrStr x d2 := by
  cases x <;> simp_all [jsTruthyStr, jsOrStr]

/-- C1: any exception during the submission call or a poll call is
caught and answered with transport status 200 and a body carrying
isBackendError = true, a string errorDetail and statusCode = 0; the
codes ECONNABORTED and ETIMEDOUT get timeout wording; a submission
exception means no poll call was issued. -/
theorem c1_transport_failure_caught (url method endpoint : String) (w : World)
    (e : JsError)
    (hu : url ≠ "") (hm : method ≠ "")
    (hmap : METHOD_ENDPOINT_MAP_V23 method = some endpoint)
    (hthrow : (tryCheckV23 method endpoint w).1 = Except.error e) :
    (serverHandler { url := some url, method := some method } w).status = 200 ∧
    (serverHandler { url := some url, method := some method } w).body =
      { isBackendError := some true
        errorDetail := some (catchErrorDetail method e)
        statusCode := some (JNum.int 0) } ∧
    ((e.code = some "ECONNABORTED" ∨ e.code = some "ETIMEDOUT") →
      (serverHandler { url := some url, method := some method } w).body.errorDetail =
        some ("Backend Timeout when calling Check-Host API for " ++ method ++ ".")) ∧
    (∀ e0, w.start = NetResult.err e0 →
      (serverHandler { url := some url, method := some method } w).pollCalls = 0) := by
  have hres := serverHandler_err url method endpoint w e hu hm hmap hthrow
  rw [hres]
  refine ⟨rfl, rfl, ?_, ?_⟩
  · intro htime
    simp only [catchErrorDetail]
    rw [if_pos]
    rcases htime with h | h <;> simp [h]
  · intro e0 hstart
    have := tryCheckV23_startErr method endpoint w e0 hstart
    simp [this]

theorem c1_witness :
    (serverHandler { url := some "example.com", method := some "http" } wStartTimeout).status = 200 ∧
    (serverHandler { url := some "example.com", method := some "http" } wStartTimeout).body.errorDetail =
      some "Backend Timeout when calling Check-Host API for http." ∧
    (serverHandler { url := some "example.com", method := some "http" } wStartTimeout).pollCalls = 0 := by
  have h := c1_transport_failure_caught "example.com" "http" "check-http" wStartTimeout
    eTimeout (by decide) (by decide) (by decide) (by rfl)
  refine ⟨h.1, ?_, h.2.2.2 eTimeout rfl⟩
  have := h.2.2.1 (Or.inl rfl)
  simpa using this

/-- C2 counterexample: a request whose url and method are both present
but whose method is unmapped gets HTTP 400, not 200, and its body has
no error field of the validation shape. -/
theorem c2_counterexample :
    ({ url := some "example.com", method := some "gopher" } : Request).url ≠ none ∧
    ({ url := some "example.com", method := some "gopher" } : Request).method ≠ none ∧
    (serverHandler { url := some "example.com", method := some "gopher" } wNoResult).status = 400 ∧
    (serverHandler { url := some "example.com", method := some "gopher" } wNoResult).body.error = none := by
  decide

/-- C2 amended: the status is always 200 or 400; it is 400 exactly when
url or method is missing (falsy) or the method is unmapped; the
missing-field case carries the validation body, the unmapped case the
backend-error-shaped body. -/
theorem c2_status_classification (req : Request) (w : World) :
    ((serverHandler req w).status = 400 ∨ (serverHandler req w).status = 200) ∧
    ((serverHandler req w).status = 400 ↔
      (jsTruthyStr req.url = false ∨ jsTruthyStr req.method = false ∨
        METHOD_ENDPOINT_MAP_V23 (req.method.getD "") = none)) ∧
    ((jsTruthyStr req.url = false ∨ jsTruthyStr req.method = false) →
      (serverHandler req w).body = { error := some "URL and Method are required." }) ∧
    ((jsTruthyStr req.url = true ∧ jsTruthyStr req.method = true ∧
        METHOD_ENDPOINT_MAP_V23 (req.method.getD "") = none) →
      (serverHandler req w).body.error = none ∧
      (serverHandler req w).body.isBackendError = some true) := by
  unfold serverHandler
  by_cases h1 : ¬ jsTruthyStr req.url = true ∨ ¬ jsTruthyStr req.method = true
  · rw [if_pos h1]
    rcases h1 with h | h
    · simp [h]
    · simp [h]
  · rw [if_neg h1]
    push_neg at h1
    rcases hmap : METHOD_ENDPOINT_MAP_V23 (req.method.getD "") with _ | ep
    · simp [hmap, h1.1, h1.2]
    · simp only [hmap]
      rcases hout : (tryCheckV23 (req.method.getD "") ep w).1 with e | b <;>
        simp [hout, h1.1, h1.2]

theorem c2_witness :
    (serverHandler { url := none, method := some "http" } wNoResult).body =
      { error := some "URL and Method are required." } :=
  (c2_status_classification { url := none, method := some "http" } wNoResult).2.2.1
    (Or.inl rfl)

/-- C3 counterexample: the unmapped-method rejection is marked with
isBackendError = true, i.e. it is backend-error classified. -/
theorem c3_counterexample :
    METHOD_ENDPOINT_MAP_V23 "ftp" = none ∧
    (serverHandler { url := some "example.com", method := some "ftp" } wNoResult).body.isBackendError =
      some true := by
  decide

/-- C3 amended: an unmapped method yields an HTTP 400 rejection whose
body is backend-error shaped (isBackendError = true, errorDetail,
statusCode = 0), and zero outbound network calls are issued. -/
theorem c3_unmapped_rejection (url method : String) (w : World)
    (hu : url ≠ "") (hm : method ≠ "")
    (hmap : METHOD_ENDPOINT_MAP_V23 method = none) :
    serverHandler { url := some url, method := some method } w =
      { status := 400
        body := { isBackendError := some true
                  errorDetail := some ("Unsupported method: " ++ method ++ ".")
                  statusCode := some (JNum.int 0) }
        submissionUrl := none
        pollCalls := 0 } := by
  unfold serverHandler
  rw [if_neg]
  · simp only [Option.getD_some, hmap]
  · simp [jsTruthyStr, hu, hm]

theorem c3_witness :
    serverHandler { url := some "example.com", method := some "ftp" } wNoResult =
      { status := 400
        body := { isBackendError := some true
                  errorDetail := some ("Unsupported method: " ++ "ftp" ++ ".")
                  statusCode := some (JNum.int 0) }
        submissionUrl := none
        pollCalls := 0 } :=
  c3_unmapped_rejection "example.com" "ftp" wNoResult (by decide) (by decide) (by decide)

/-- C4: a successful submission for a mapped method followed by six
poll attempts that never find a per-node record yields exactly 6 poll
calls and the 599 timeout outcome with no isBackendError flag. -/
theorem c4_poll_exhaustion (url method endpoint : String) (w : World) (sd : StartData)
    (hu : url ≠ "") (hm : method ≠ "")
    (hmap : METHOD_ENDPOINT_MAP_V23 method = some endpoint)
    (hstart : w.start = NetResult.ok sd)
    (hok : sd.ok = JSVal.num 1) (hid : jsTruthyStr sd.request_id = true)
    (hpolls : ∀ i < 6, ∃ d, w.polls i = NetResult.ok d ∧ pollDataFound d = none) :
    serverHandler { url := some url, method := some method } w =
      { status := 200
        body := { latency := some 6000
                  statusCode := some (JNum.int 599)
                  isUp := some false
                  errorRate := some 1
                  errorDetail := some ("Check-Host node did not return result for "
                    ++ method ++ " within timeout.") }
        submissionUrl := some (checkUrlOf endpoint url)
        pollCalls := 6 } := by
  have hloop : pollLoop w.polls 0 maxAttempts = (Except.ok none, 6) := by
    have := pollLoop_exhaust w.polls 6 0
      (fun i _ h2 => hpolls i (by omega))
    simpa [maxAttempts] using this
  have htry := tryCheckV23_ack method endpoint w sd hstart hok hid
  rw [hloop] at htry
  simp only at htry
  have hres := serverHandler_ok url method endpoint w _ hu hm hmap
    (by rw [htry])
  rw [hres, htry]

theorem c4_witness :
    serverHandler { url := some "example.com", method := some "ping" } wNoResult =
      { status := 200
        body := { latency := some 6000
                  statusCode := some (JNum.int 599)
                  isUp := some false
                  errorRate := some 1
                  errorDetail := some ("Check-Host node did not return result for "
                    ++ "ping" ++ " within timeout.") }
        submissionUrl := some (checkUrlOf "check-ping" "example.com")
        pollCalls := 6 } :=
  c4_poll_exhaustion "example.com" "ping" "check-ping" wNoResult okStart
    (by decide) (by decide) (by decide) rfl rfl (by decide)
    (fun i _ => ⟨pendingPoll, rfl, rfl⟩)

/-- C5: for a mapped pollable method (not dns, not whois), a submission
response lacking the ok = 1 acknowledgement or a non-empty request id
yields the backend-error outcome with statusCode 0 and zero poll
calls. -/
theorem c5_submission_rejected (url method endpoint : String) (w : World) (sd : StartData)
    (hu : url ≠ "") (hm : method ≠ "")
    (hmap : METHOD_ENDPOINT_MAP_V23 method = some endpoint)
    (hnw : method ≠ "whois") (hnd : method ≠ "dns")
    (hstart : w.start = NetResult.ok sd)
    (hrej : sd.ok ≠ JSVal.num 1 ∨ jsTruthyStr sd.request_id = false) :
    serverHandler { url := some url, method := some method } w =
      { status := 200
        body := { isBackendError := some true
                  errorDetail := some ("Check-Host API rejected the request for method "
                    ++ method ++ ".")
                  statusCode := some (JNum.int 0) }
        submissionUrl := some (checkUrlOf endpoint url)
        pollCalls := 0 } := by
  obtain ⟨hwiff, hdiff⟩ := map_v23_whois_dns method endpoint hmap
  have htry := tryCheckV23_rejected method endpoint w sd hstart hrej
    (fun h => hnw (hwiff.mp h)) (fun h => hnd (hdiff.mp h))
  have hres := serverHandler_ok url method endpoint w _ hu hm hmap (by rw [htry])
  rw [hres, htry]

theorem c5_witness :
    serverHandler { url := some "example.com", method := some "tcp" }
        { start := NetResult.ok { ok := JSVal.num 0, request_id := none, message := some "limit_exceeded" },
          polls := fun _ => NetResult.ok pendingPoll } =
      { status := 200
        body := { isBackendError := some true
                  errorDetail := some ("Check-Host API rejected the request for method "
                    ++ "tcp" ++ ".")
                  statusCode := some (JNum.int 0) }
        submissionUrl := some (checkUrlOf "check-tcp" "example.com")
        pollCalls := 0 } :=
  c5_submission_rejected "example.com" "tcp" "check-tcp" _
    { ok := JSVal.num 0, request_id := none, message := some "limit_exceeded" }
    (by decide) (by decide) (by decide) (by decide) (by decide) rfl
    (Or.inl (by decide))

/-- C6: for method dns or whois, a submission response lacking the
ok = 1 acknowledgement or the request id yields the immediate outcome
isUp = true, latency = 0, statusCode = 200, whose message embeds the
upstream message verbatim whenever one is present. -/
theorem c6_immediate_result (url method : String) (w : World) (sd : StartData)
    (hu : url ≠ "")
    (hmd : method = "dns" ∨ method = "whois")
    (hstart : w.start = NetResult.ok sd)
    (hrej : sd.ok ≠ JSVal.num 1 ∨ jsTruthyStr sd.request_id = false) :
    serverHandler { url := some url, method := some method } w =
      { status := 200
        body := { isUp := some true
                  latency := some 0
                  statusCode := some (JNum.int 200)
                  message := some ("Initial result for " ++ method ++ ": " ++
                    jsOrStr sd.message "Data received.") }
        submissionUrl := some
          (checkUrlOf (if method = "dns" then "check-dns" else "check-whois") url)
        pollCalls := 0 } ∧
    (∀ m : String, sd.message = some m → m ≠ "" →
      (serverHandler { url := some url, method := some method } w).body.message =
        some ("Initial result for " ++ method ++ ": " ++ m)) := by
  rcases hmd with hm | hm <;> subst hm
  · have htry := tryCheckV23_immediate "dns" "check-dns" w sd hstart hrej (Or.inr rfl)
    have hres := serverHandler_ok url "dns" "check-dns" w _ hu (by decide)
      (by decide) (by rw [htry])
    rw [hres, htry]
    refine ⟨by simp, ?_⟩
    intro m hmsg hne
    simp [hmsg, jsOrStr, hne]
  · have htry := tryCheckV23_immediate "whois" "check-whois" w sd hstart hrej (Or.inl rfl)
    have hres := serverHandler_ok url "whois" "check-whois" w _ hu (by decide)
      (by decide) (by rw [htry])
    rw [hres, htry]
    refine ⟨by simp, ?_⟩
    intro m hmsg hne
    simp [hmsg, jsOrStr, hne]

theorem c6_witness :
    serverHandler { url := some "example.com", method := some "dns" }
        { start := NetResult.ok { ok := JSVal.num 0, request_id := none, message := some "A 93.184.216.34" },
          polls := fun _ => NetResult.ok pendingPoll } =
      { status := 200
        body := { isUp := some true
                  latency := some 0
                  statusCode := some (JNum.int 200)
                  message := some ("Initial result for " ++ "dns" ++ ": " ++
                    jsOrStr (some "A 93.184.216.34") "Data received.") }
        submissionUrl := some
          (checkUrlOf (if "dns" = "dns" then "check-dns" else "check-whois") "example.com")
        pollCalls := 0 } :=
  (c6_immediate_result "example.com" "dns" _
    { ok := JSVal.num 0, request_id := none, message := some "A 93.184.216.34" }
    (by decide) (Or.inl rfl) rfl (Or.inl (by decide))).1

/-- C7: isUp is true exactly when the raw up flag is the number 1 under
strict equality; latency is round(latencySeconds * 1000) and defaults
to 0 when latencySeconds is absent; the tuple [1, 0.35, OK, 200]
normalizes end to end to isUp = true, latency = 350, statusCode = 200. -/
theorem c7_normalization :
    (∀ t : ResultTuple, (normalizedIsUp t = true ↔ t.isUpRaw = JSVal.num 1)) ∧
    (∀ t : ResultTuple, t.latencySeconds = none → normalizedLatency t = 0) ∧
    (∀ (t : ResultTuple) (q : ℚ), t.latencySeconds = some q →
      normalizedLatency t = jsRound (q * 1000)) ∧
    serverHandler { url := some "example.com", method := some "http" } (wWithTuple tupleOK) =
      { status := 200
        body := { latency := some 350
                  statusCode := some (JNum.int 200)
                  isUp := some true
                  errorRate := some 0
                  message := some "OK" }
        submissionUrl := some (checkUrlOf "check-http" "example.com")
        pollCalls := 1 } := by
  refine ⟨?_, ?_, ?_, ?_⟩
  · intro t
    rw [normalizedIsUp, jsStrictEqNum_one_iff]
  · intro t h
    simp only [normalizedLatency, h, Option.getD_none]
    rw [jsRound]
    norm_num
    rw [Rat.floor_def']
    norm_num
  · intro t q h
    simp only [normalizedLatency, h, Option.getD_some]
  · have htry := tryCheckV23_ack "http" "check-http" (wWithTuple tupleOK) okStart rfl rfl
      (by decide)
    have hloop : pollLoop (wWithTuple tupleOK).polls 0 maxAttempts =
        (Except.ok (some tupleOK), 1) := rfl
    rw [hloop] at htry
    simp only at htry
    have hres := serverHandler_ok "example.com" "http" "check-http" (wWithTuple tupleOK) _
      (by decide) (by decide) (by decide) (by rw [htry])
    have hlat : normalizedLatency tupleOK = 350 := by
      rw [normalizedLatency]
      simp only [tupleOK, Option.getD_some]
      rw [jsRound]
      norm_num
      rw [Rat.floor_def']
      norm_num
    have hup : normalizedIsUp tupleOK = true := by decide
    have hsc : normalizedStatusCode tupleOK = JNum.int 200 := by decide
    rw [hres, htry]
    simp [hlat, hup, hsc, show tupleOK.message = some "OK" from rfl]

theorem c7_witness :
    normalizedIsUp { isUpRaw := JSVal.num 1, latencySeconds := none, message := none, statusCodeRaw := none } = true ∧
    normalizedLatency { isUpRaw := JSVal.str "1", latencySeconds := none, message := none, statusCodeRaw := none } = 0 ∧
    normalizedLatency { isUpRaw := JSVal.num 0, latencySeconds := some (1/4), message := none, statusCodeRaw := none } = jsRound ((1/4 : ℚ) * 1000) :=
  ⟨(c7_normalization.1 _).mpr rfl, c7_normalization.2.1 _ rfl,
    c7_normalization.2.2.1 _ (1/4) rfl⟩

/-- A result record whose status-code position holds a non-numeric
string. -/
def tupleBadStatus : ResultTuple :=
  { isUpRaw := JSVal.num 0, latencySeconds := some 0,
    message := some "Host unreachable", statusCodeRaw := some "abc" }

/-- C8 counterexample: a non-numeric status-code string yields NaN
(serialized as null), not 0. -/
theorem c8_counterexample :
    normalizedStatusCode tupleBadStatus = JNum.nan ∧
    JNum.nan ≠ JNum.int 0 ∧
    (serverHandler { url := some "example.com", method := some "ping" }
      (wWithTuple tupleBadStatus)).body.statusCode = some JNum.nan := by
  decide

/-- C8 amended: statusCode is the parseInt of the raw status string and
defaults to 0 when the raw string is absent or empty; an unparseable
non-numeric string however yields NaN, not 0. -/
theorem c8_status_parse :
    (∀ t : ResultTuple, t.statusCodeRaw = none → normalizedStatusCode t = JNum.int 0) ∧
    (∀ t : ResultTuple, t.statusCodeRaw = some "" → normalizedStatusCode t = JNum.int 0) ∧
    (∀ (t : ResultTuple) (s : String), t.statusCodeRaw = some s → s ≠ "" →
      normalizedStatusCode t = parseIntJS s) ∧
    parseIntJS "200" = JNum.int 200 ∧
    parseIntJS "abc" = JNum.nan := by
  refine ⟨?_, ?_, ?_, by decide, by decide⟩
  · intro t h
    simp only [normalizedStatusCode, h]
    decide
  · intro t h
    simp only [normalizedStatusCode, h]
    decide
  · intro t s h hne
    simp [normalizedStatusCode, h, jsOrStr, hne]

theorem c8_witness :
    normalizedStatusCode { isUpRaw := JSVal.num 0, latencySeconds := none, message := none, statusCodeRaw := none } = JNum.int 0 ∧
    normalizedStatusCode { isUpRaw := JSVal.num 0, latencySeconds := none, message := none, statusCodeRaw := some "404" } = parseIntJS "404" :=
  ⟨c8_status_parse.1 _ rfl, c8_status_parse.2.2.1 _ "404" rfl (by decide)⟩

lemma checkUrlOf_flat (apiEndpoint url : String) :
    checkUrlOf apiEndpoint url =
      "https://check-host.net/" ++ apiEndpoint ++ "?host=" ++ url ++
        "&node=sg1.node.check-host.net" := by
  unfold checkUrlOf CHECK_HOST_BASE_URL DEFAULT_NODE_ID
  rw [show "https://check-host.net" ++ "/" = "https://check-host.net/" from rfl]
  rw [String.append_assoc _ "&node=" "sg1.node.check-host.net"]
  rw [show "&node=" ++ "sg1.node.check-host.net" = "&node=sg1.node.check-host.net" from rfl]

/-- C10: the submission URL is the plain concatenation of the base,
the endpoint, the raw caller url and the fixed node id, with no
percent-encoding; consequently a url containing an ampersand makes the
upstream see query parameters different from host = url, node = node. -/
theorem c10_submission_url (url method endpoint : String) (w : World)
    (hu : url ≠ "") (hm : method ≠ "")
    (hmap : METHOD_ENDPOINT_MAP_V23 method = some endpoint) :
    (serverHandler { url := some url, method := some method } w).submissionUrl =
      some ("https://check-host.net/" ++ endpoint ++ "?host=" ++ url ++
        "&node=sg1.node.check-host.net") ∧
    parseQuery (checkUrlOf "check-http" "a&b") ≠
      [("host", "a&b"), ("node", "sg1.node.check-host.net")] ∧
    parseQuery (checkUrlOf "check-http" "a&b") =
      [("host", "a"), ("b", ""), ("node", "sg1.node.check-host.net")] := by
  refine ⟨?_, by decide, by decide⟩
  rw [← checkUrlOf_flat]
  unfold serverHandler
  rw [if_neg]
  · simp only [Option.getD_some, hmap]
    rcases hout : (tryCheckV23 method endpoint w).1 with e | b <;> simp [hout]
  · simp [jsTruthyStr, hu, hm]

theorem c10_witness :
    (serverHandler { url := some "example.com", method := some "ping" } wNoResult).submissionUrl =
      some ("https://check-host.net/" ++ "check-ping" ++ "?host=" ++ "example.com" ++
        "&node=sg1.node.check-host.net") :=
  (c10_submission_url "example.com" "ping" "check-ping" wNoResult
    (by decide) (by decide) (by decide)).1

/-- C9 counterexample: for method udp the V2.3 handler proceeds (udp is
mapped) while the V3.0 handler rejects with HTTP 400; and on the
normal-result path only the V2.3 body carries the errorRate field. -/
theorem c9_counterexample :
    (serverHandler { url := some "example.com", method := some "udp" } wNoResult).status = 200 ∧
    (monitorHandler { url := some "example.com", method := some "udp" } wNoResult).status = 400 ∧
    (serverHandler { url := some "example.com", method := some "ping" } (wWithTuple tupleBadStatus)).body.errorRate = some 1 ∧
    (monitorHandler { url := some "example.com", method := some "ping" } (wWithTuple tupleBadStatus)).body.errorRate = none :=
  ⟨by decide, by decide, by decide, by decide⟩

/-- Erase the three body fields on which the two handler versions are
allowed to differ: errorRate, errorDetail and message. -/
def stripVariantFields (b : RespBody) : RespBody :=
  { b with errorRate := none, errorDetail := none, message := none }

lemma tryCheck_agree (method endpoint : String) (w : World) :
    (tryCheckV23 method endpoint w).2 = (tryCheckV30 method endpoint w).2 ∧
    (∀ e, (tryCheckV23 method endpoint w).1 = Except.error e →
      (tryCheckV30 method endpoint w).1 = Except.error e) ∧
    (∀ b1, (tryCheckV23 method endpoint w).1 = Except.ok b1 →
      ∃ b2, (tryCheckV30 method endpoint w).1 = Except.ok b2 ∧
        stripVariantFields b1 = stripVariantFields b2 ∧
        (b1.statusCode = some (JNum.int 599) → b1.errorDetail = b2.errorDetail) ∧
        (∀ sd, w.start = NetResult.ok sd → jsTruthyStr sd.message = true →
          b1.message = b2.message)) := by
  unfold tryCheckV23 tryCheckV30
  rcases hstart : w.start with sd | e
  · simp only [hstart]
    by_cases hrej : ¬ jsStrictEqNum sd.ok 1 = true ∨ ¬ jsTruthyStr sd.request_id = true
    · rw [if_pos hrej, if_pos hrej]
      by_cases hwd : endpoint = "check-whois" ∨ endpoint = "check-dns"
      · rw [if_pos hwd, if_pos hwd]
        refine ⟨by simp, by simp, ?_⟩
        intro b1 hb1
        refine ⟨_, rfl, ?_, ?_, ?_⟩
        · simp only [Except.ok.injEq] at hb1
          subst hb1
          rfl
        · simp only [Except.ok.injEq] at hb1
          subst hb1
          exact fun h => by simp at h
        · simp only [Except.ok.injEq] at hb1
          subst hb1
          intro sd2 hsd2 htr
          simp only [NetResult.ok.injEq] at hsd2
          subst hsd2
          simp only
          rw [jsOrStr_of_truthy sd.message "Data received."
            "No specific error message provided by Check-Host." htr]
      · rw [if_neg hwd, if_neg hwd]
        refine ⟨by simp, by simp, ?_⟩
        intro b1 hb1
        refine ⟨_, rfl, ?_, ?_, ?_⟩
        · simp only [Except.ok.injEq] at hb1
          subst hb1
          rfl
        · simp only [Except.ok.injEq] at hb1
          subst hb1
          exact fun h => by simp at h
        · exact fun _ _ _ => by
            simp only [Except.ok.injEq] at hb1
            subst hb1
            rfl
    · rw [if_neg hrej, if_neg hrej]
      rcases hloop : (pollLoop w.polls 0 maxAttempts).1 with e0 | r
      · simp only [hloop]
        exact ⟨by simp, fun e he => he, fun b1 hb1 => by simp at hb1⟩
      · rcases r with _ | t
        · simp only [hloop]
          refine ⟨by simp, by simp, ?_⟩
          intro b1 hb1
          refine ⟨_, rfl, ?_, ?_, ?_⟩
          · simp only [Except.ok.injEq] at hb1
            subst hb1
            rfl
          · simp only [Except.ok.injEq] at hb1
            subst hb1
            exact fun _ => rfl
          · exact fun _ _ _ => by
              simp only [Except.ok.injEq] at hb1
              subst hb1
              rfl
        · simp only [hloop]
          refine ⟨by simp, by simp, ?_⟩
          intro b1 hb1
          refine ⟨_, rfl, ?_, ?_, ?_⟩
          · simp only [Except.ok.injEq] at hb1
            subst hb1
            rfl
          · simp only [Except.ok.injEq] at hb1
            subst hb1
            exact fun _ => rfl
          · exact fun _ _ _ => by
              simp only [Except.ok.injEq] at hb1
              subst hb1
              rfl
  · simp only [hstart]
    exact ⟨by simp, fun e0 he => he, fun b1 hb1 => by simp at hb1⟩

lemma serverHandler_unmapped (url method : String) (w : World)
    (hu : url ≠ "") (hm : method ≠ "")
    (hmap : METHOD_ENDPOINT_MAP_V23 method = none) :
    serverHandler { url := some url, method := some method } w =
      { status := 400
        body := { isBackendError := some true
                  errorDetail := some ("Unsupported method: " ++ method ++ ".")
                  statusCode := some (JNum.int 0) }
        submissionUrl := none
        pollCalls := 0 } := by
  unfold serverHandler
  rw [if_neg]
  · simp only [Option.getD_some, hmap]
  · simp [jsTruthyStr, hu, hm]

lemma monitorHandler_unmapped (url method : String) (w : World)
    (hu : url ≠ "") (hm : method ≠ "")
    (hmap : METHOD_ENDPOINT_MAP_V30 method = none) :
    monitorHandler { url := some url, method := some method } w =
      { status := 400
        body := { isBackendError := some true
                  errorDetail := some ("Unsupported method: " ++ method ++ ".")
                  statusCode := some (JNum.int 0) }
        submissionUrl := none
        pollCalls := 0 } := by
  unfold monitorHandler
  rw [if_neg]
  · simp only [Option.getD_some, hmap]
  · simp [jsTruthyStr, hu, hm]

lemma monitorHandler_ok (url method endpoint : String) (w : World) (b : RespBody)
    (hu : url ≠ "") (hm : method ≠ "")
    (hmap : METHOD_ENDPOINT_MAP_V30 method = some endpoint)
    (hok : (tryCheckV30 method endpoint w).1 = Except.ok b) :
    monitorHandler { url := some url, method := some method } w =
      { status := 200, body := b,
        submissionUrl := some (checkUrlOf endpoint url),
        pollCalls := (tryCheckV30 method endpoint w).2 } := by
  unfold monitorHandler
  rw [if_neg]
  · simp only [Option.getD_some, hmap, hok]
  · simp [jsTruthyStr, hu, hm]

lemma monitorHandler_err (url method endpoint : String) (w : World) (e : JsError)
    (hu : url ≠ "") (hm : method ≠ "")
    (hmap : METHOD_ENDPOINT_MAP_V30 method = some endpoint)
    (herr : (tryCheckV30 method endpoint w).1 = Except.error e) :
    monitorHandler { url := some url, method := some method } w =
      { status := 200
        body := { isBackendError := some true
                  errorDetail := some (catchErrorDetail method e)
                  statusCode := some (JNum.int 0) }
        submissionUrl := some (checkUrlOf endpoint url)
        pollCalls := (tryCheckV30 method endpoint w).2 } := by
  unfold monitorHandler
  rw [if_neg]
  · simp only [Option.getD_some, hmap, herr]
  · simp [jsTruthyStr, hu, hm]

/-- C9 amended: for every request whose method is not udp, the two
handler versions return the same HTTP status, the same outbound calls,
and bodies that agree outside the errorRate, errorDetail and message
fields; the errorDetail fields moreover agree on the transport-failure
path and on the poll-exhaustion path, and the message fields agree
whenever the upstream submission message is present and non-empty. -/
theorem c9_handlers_agree (req : Request) (w : World)
    (hud : req.method ≠ some "udp") :
    (serverHandler req w).status = (monitorHandler req w).status ∧
    (serverHandler req w).submissionUrl = (monitorHandler req w).submissionUrl ∧
    (serverHandler req w).pollCalls = (monitorHandler req w).pollCalls ∧
    stripVariantFields (serverHandler req w).body =
      stripVariantFields (monitorHandler req w).body ∧
    ((∃ e, w.start = NetResult.err e) →
      (serverHandler req w).body.errorDetail = (monitorHandler req w).body.errorDetail) ∧
    ((serverHandler req w).body.statusCode = some (JNum.int 599) →
      (serverHandler req w).body.errorDetail = (monitorHandler req w).body.errorDetail) ∧
    (∀ sd, w.start = NetResult.ok sd → jsTruthyStr sd.message = true →
      (serverHandler req w).body.message = (monitorHandler req w).body.message) := by
  obtain ⟨u, m⟩ := req
  by_cases h1 : ¬ jsTruthyStr u = true ∨ ¬ jsTruthyStr m = true
  · have hs : serverHandler { url := u, method := m } w =
        monitorHandler { url := u, method := m } w := by
      unfold serverHandler monitorHandler
      rw [if_pos h1, if_pos h1]
    rw [hs]
    exact ⟨rfl, rfl, rfl, rfl, fun _ => rfl, fun _ => rfl, fun _ _ _ => rfl⟩
  · have hu : jsTruthyStr u = true := by
      by_contra hh
      exact h1 (Or.inl hh)
    have hmt : jsTruthyStr m = true := by
      by_contra hh
      exact h1 (Or.inr hh)
    rcases u with _ | us
    · simp [jsTruthyStr] at hu
    rcases m with _ | ms
    · simp [jsTruthyStr] at hmt
    have hus : us ≠ "" := by simpa [jsTruthyStr] using hu
    have hms : ms ≠ "" := by simpa [jsTruthyStr] using hmt
    have hmu : ms ≠ "udp" := fun hh => hud (by rw [hh])
    rcases hmap : METHOD_ENDPOINT_MAP_V23 ms with _ | ep
    · have hmap30 : METHOD_ENDPOINT_MAP_V30 ms = none := by
        rw [← map_agree ms hmu, hmap]
      rw [serverHandler_unmapped us ms w hus hms hmap,
          monitorHandler_unmapped us ms w hus hms hmap30]
      exact ⟨rfl, rfl, rfl, rfl, fun _ => rfl, fun _ => rfl, fun _ _ _ => rfl⟩
    · have hmap30 : METHOD_ENDPOINT_MAP_V30 ms = some ep := by
        rw [← map_agree ms hmu, hmap]
      obtain ⟨h2, herr, hok⟩ := tryCheck_agree ms ep w
      rcases h23 : (tryCheckV23 ms ep w).1 with e | b1
      · have h30 := herr e h23
        rw [serverHandler_err us ms ep w e hus hms hmap h23,
            monitorHandler_err us ms ep w e hus hms hmap30 h30]
        exact ⟨rfl, rfl, h2, rfl, fun _ => rfl, fun _ => rfl, fun _ _ _ => rfl⟩
      · obtain ⟨b2, h30, hstrip, h599, hmsg⟩ := hok b1 h23
        rw [serverHandler_ok us ms ep w b1 hus hms hmap h23,
            monitorHandler_ok us ms ep w b2 hus hms hmap30 h30]
        refine ⟨rfl, rfl, h2, hstrip, ?_, h599, hmsg⟩
        rintro ⟨e, hse⟩
        have hte := tryCheckV23_startErr ms ep w e hse
        rw [hte] at h23
        simp at h23

theorem c9_witness :
    (serverHandler { url := some "example.com", method := some "http" } wNoResult).status =
      (monitorHandler { url := some "example.com", method := some "http" } wNoResult).status ∧
    stripVariantFields (serverHandler { url := some "example.com", method := some "http" } wNoResult).body =
      stripVariantFields (monitorHandler { url := some "example.com", method := some "http" } wNoResult).body :=
  ⟨(c9_handlers_agree { url := some "example.com", method := some "http" } wNoResult (by decide)).1,
   (c9_handlers_agree { url := some "example.com", method := some "http" } wNoResult (by decide)).2.2.2.1⟩
